import Mathlib

/-!
Shallow embedding of the real-time-concepts core of the repository:
the traffic-light finite state machine
(`Module5-Real-Time-Concepts/01_state_machine_traffic.c`), the watchdog
loop of the FreeRTOS tasks example
(`Module5-Real-Time-Concepts/03_freertos_tasks.c`), and the sensor
statistics of the hardware-timer example.  C `uint32_t` arithmetic is
modelled as `Nat` reduced modulo `2^32`.
-/

/-- The modulus of C `uint32_t` arithmetic, `2^32`. -/
def U32 : Nat := 2 ^ 32

/-- C `uint32_t` addition: `(a + b) % 2^32`. -/
def u32add (a b : Nat) : Nat := (a + b) % U32

/-- C `uint32_t` subtraction `a - b` (wrap-around on underflow). -/
def u32sub (a b : Nat) : Nat := (a % U32 + U32 - b % U32) % U32

/-- The six states of the traffic light (`TrafficLightState` enum). -/
inductive TrafficLightState where
  | red
  | green
  | yellow
  | redYellow
  | pedestrian
  | error
  deriving DecidableEq, Repr

/-- The five events of the traffic light (`TrafficLightEvent` enum). -/
inductive TrafficLightEvent where
  | timerExpired
  | buttonPressed
  | emergency
  | sensorTriggered
  | reset
  deriving DecidableEq, Repr

/-- The fields of the C struct `TrafficLightSystem`. -/
structure TrafficLightSystem where
  currentState : TrafficLightState
  previousState : TrafficLightState
  stateStartTime : Nat
  stateDuration : Nat
  pedestrianRequested : Bool
  emergencyMode : Bool
  totalCycles : Nat
  errorFlag : Bool
  deriving DecidableEq, Repr

/-- The whole mutable environment of `01_state_machine_traffic.c`: the
global `trafficLight` struct, the `static uint32_t simulatedTime` local
of `getCurrentTime`, and the `static bool redFlashing` local of
`handleEvent`. -/
structure Sys where
  tl : TrafficLightSystem
  simulatedTime : Nat
  redFlashing : Bool
  deriving DecidableEq, Repr

/-- The global initializer of `trafficLight` together with the initial
values of the two statics. -/
def initialSys : Sys :=
  { tl := { currentState := .red, previousState := .red,
            stateStartTime := 0, stateDuration := 0,
            pedestrianRequested := false, emergencyMode := false,
            totalCycles := 0, errorFlag := false },
    simulatedTime := 0, redFlashing := false }

/-- Function `getCurrentTime`: advances the static `simulatedTime` by
1000 and returns it (`uint32_t` arithmetic). -/
def getCurrentTime (s : Sys) : Sys × Nat :=
  let t := u32add s.simulatedTime 1000
  ({ s with simulatedTime := t }, t)

/-- Function `enterState(newState)`: records the previous state, sets the new
state, stamps `stateStartTime` from `getCurrentTime()`, then sets the
per-state duration (and the pedestrian / error flags for the
`STATE_PEDESTRIAN` / `STATE_ERROR` branches).  Light/printf side
effects are external sinks and not modelled. -/
def enterState (newState : TrafficLightState) (s : Sys) : Sys :=
  let p := getCurrentTime s
  let s1 := p.1
  let t := p.2
  let tl1 := { s1.tl with previousState := s1.tl.currentState,
                          currentState := newState,
                          stateStartTime := t }
  let tl2 :=
    match newState with
    | .red => { tl1 with stateDuration := 10000 }
    | .green => { tl1 with stateDuration := 15000 }
    | .yellow => { tl1 with stateDuration := 3000 }
    | .redYellow => { tl1 with stateDuration := 2000 }
    | .pedestrian => { tl1 with stateDuration := 20000,
                                pedestrianRequested := false }
    | .error => { tl1 with stateDuration := 1000, errorFlag := true }
  { s1 with tl := tl2 }

/-- Function `handleEvent(event)`: the event dispatch of the traffic light. -/
def handleEvent (event : TrafficLightEvent) (s : Sys) : Sys :=
  match event with
  | .timerExpired =>
    match s.tl.currentState with
    | .red =>
      if s.tl.pedestrianRequested then enterState .pedestrian s
      else enterState .redYellow s
    | .redYellow => enterState .green s
    | .green => enterState .yellow s
    | .yellow =>
      let s1 := enterState .red s
      { s1 with tl := { s1.tl with totalCycles := u32add s1.tl.totalCycles 1 } }
    | .pedestrian => enterState .redYellow s
    | .error => { s with redFlashing := !s.redFlashing }
  | .buttonPressed =>
    let s1 := { s with tl := { s.tl with pedestrianRequested := true } }
    if s1.tl.currentState = .green then
      let p := getCurrentTime s1
      let timeInState := u32sub p.2 p.1.tl.stateStartTime
      if 5000 < timeInState then enterState .yellow p.1 else p.1
    else s1
  | .emergency =>
    enterState .green { s with tl := { s.tl with emergencyMode := true } }
  | .sensorTriggered =>
    if s.tl.currentState = .green then
      { s with tl := { s.tl with stateDuration := u32add s.tl.stateDuration 5000 } }
    else s
  | .reset =>
    enterState .red
      { s with tl := { s.tl with emergencyMode := false,
                                 errorFlag := false,
                                 pedestrianRequested := false } }

/-- Function `isTimeToChangeState()`: reads the clock and returns whether
`currentTime - stateStartTime >= stateDuration` (`uint32_t`
arithmetic). -/
def isTimeToChangeState (s : Sys) : Sys × Bool :=
  let p := getCurrentTime s
  (p.1, decide (p.1.tl.stateDuration ≤ u32sub p.2 p.1.tl.stateStartTime))

/-- Function `displayStatus()`: its only observable effect on the model is one
`getCurrentTime()` call (it prints through the external sink). -/
def displayStatus (s : Sys) : Sys := (getCurrentTime s).1

/-- Function `runStateMachine()`: one step — fire a synthetic
`EVENT_TIMER_EXPIRED` when the state duration elapsed, then display
status. -/
def runStateMachine (s : Sys) : Sys :=
  let p := isTimeToChangeState s
  let s2 := if p.2 then handleEvent .timerExpired p.1 else p.1
  displayStatus s2

/-- The value returned by the n-th call (n ≥ 1) of `getCurrentTime`,
starting from the static initializer `simulatedTime = 0`:
`simTime 0 = 0` is the initial static value, and each call adds 1000
modulo `2^32` and returns the new value. -/
def simTime : Nat → Nat
  | 0 => 0
  | n + 1 => u32add (simTime n) 1000

theorem simTime_closed (n : Nat) : simTime n = 1000 * n % U32 := by
  induction n with
  | zero => simp [simTime]
  | succ n ih =>
    simp [simTime, u32add, ih, Nat.mod_add_mod, Nat.mul_succ]

/-- C1: handling `EVENT_RESET` from any state and any flag
configuration sets `currentState` to `STATE_RED` and clears
`pedestrianRequested`, `emergencyMode` and `errorFlag`. -/
theorem reset_forces_red_and_clears_flags (s : Sys) :
    (handleEvent .reset s).tl.currentState = .red ∧
    (handleEvent .reset s).tl.pedestrianRequested = false ∧
    (handleEvent .reset s).tl.emergencyMode = false ∧
    (handleEvent .reset s).tl.errorFlag = false := by
  simp [handleEvent, enterState, getCurrentTime]

/-- A concrete system used by the witnesses: the traffic light freshly
in `STATE_RED` (duration 10000 ms, entered at time 0). -/
def sampleRedSys : Sys :=
  { tl := { currentState := .red, previousState := .red,
            stateStartTime := 0, stateDuration := 10000,
            pedestrianRequested := false, emergencyMode := false,
            totalCycles := 0, errorFlag := false },
    simulatedTime := 0, redFlashing := false }

/-- A concrete system used by the witnesses: the traffic light in
`STATE_GREEN` (duration 15000 ms, entered at time 1000). -/
def sampleGreenSys : Sys :=
  { tl := { currentState := .green, previousState := .red,
            stateStartTime := 1000, stateDuration := 15000,
            pedestrianRequested := false, emergencyMode := false,
            totalCycles := 0, errorFlag := false },
    simulatedTime := 1000, redFlashing := false }

/-- C3: if at the moment `runStateMachine` is invoked the time elapsed
in the current state (as computed from the clock read the call makes)
is still strictly below the state's duration, the call leaves
`currentState` unchanged. -/
theorem runStateMachine_noop_before_duration (s : Sys)
    (h : u32sub (getCurrentTime s).2 s.tl.stateStartTime < s.tl.stateDuration) :
    (runStateMachine s).tl.currentState = s.tl.currentState := by
  simp only [getCurrentTime] at h
  have h' : ¬ (s.tl.stateDuration ≤
      u32sub (u32add s.simulatedTime 1000) s.tl.stateStartTime) := Nat.not_le.mpr h
  simp [runStateMachine, isTimeToChangeState, displayStatus, getCurrentTime, h']

/-- Witness for C3 at the fresh red state (elapsed 1000 < 10000). -/
theorem runStateMachine_noop_before_duration_witness :
    u32sub (getCurrentTime sampleRedSys).2 sampleRedSys.tl.stateStartTime <
      sampleRedSys.tl.stateDuration ∧
    (runStateMachine sampleRedSys).tl.currentState = sampleRedSys.tl.currentState :=
  ⟨by decide, runStateMachine_noop_before_duration sampleRedSys (by decide)⟩

/-- C4: entering `STATE_RED` sets a 10000 ms duration, and handling the
synthetic `EVENT_TIMER_EXPIRED` in `STATE_RED` with
`pedestrianRequested` false transitions to `STATE_RED_YELLOW`. -/
theorem red_timer_expired_to_redYellow :
    (∀ s : Sys, (enterState .red s).tl.stateDuration = 10000) ∧
    (∀ s : Sys, s.tl.currentState = .red → s.tl.pedestrianRequested = false →
      (handleEvent .timerExpired s).tl.currentState = .redYellow) := by
  refine ⟨fun s => ?_, fun s h1 h2 => ?_⟩
  · simp [enterState, getCurrentTime]
  · simp [handleEvent, h1, h2, enterState, getCurrentTime]

/-- Witness for C4 at the fresh red state. -/
theorem red_timer_expired_to_redYellow_witness :
    sampleRedSys.tl.currentState = .red ∧
    sampleRedSys.tl.pedestrianRequested = false ∧
    (handleEvent .timerExpired sampleRedSys).tl.currentState = .redYellow :=
  ⟨by decide, by decide,
    red_timer_expired_to_redYellow.2 sampleRedSys (by decide) (by decide)⟩

/-- C5: the timeout condition compares `now - stateStartTime` (uint32)
with `stateDuration`, where `stateStartTime` is stamped from the clock
exactly at state entry; checking the condition never updates the
baseline, and a `runStateMachine` step that finds the duration not yet
elapsed leaves the baseline unchanged as well. -/
theorem timeout_measured_from_state_entry :
    (∀ (n : TrafficLightState) (s : Sys),
      (enterState n s).tl.stateStartTime = (getCurrentTime s).2) ∧
    (∀ s : Sys,
      ((isTimeToChangeState s).1).tl.stateStartTime = s.tl.stateStartTime) ∧
    (∀ s : Sys, (isTimeToChangeState s).2 = true ↔
      s.tl.stateDuration ≤ u32sub (getCurrentTime s).2 s.tl.stateStartTime) ∧
    (∀ s : Sys, (isTimeToChangeState s).2 = false →
      (runStateMachine s).tl.stateStartTime = s.tl.stateStartTime) := by
  refine ⟨fun n s => ?_, fun s => rfl, fun s => ?_, fun s h => ?_⟩
  · cases n <;> simp [enterState, getCurrentTime]
  · simp [isTimeToChangeState, getCurrentTime]
  · simp only [isTimeToChangeState, getCurrentTime, decide_eq_false_iff_not] at h
    simp [runStateMachine, isTimeToChangeState, displayStatus, getCurrentTime, h]

/-- Witness for C5 at the fresh red state (check returns false there
and leaves the baseline alone). -/
theorem timeout_measured_from_state_entry_witness :
    (isTimeToChangeState sampleRedSys).2 = false ∧
    (runStateMachine sampleRedSys).tl.stateStartTime =
      sampleRedSys.tl.stateStartTime :=
  ⟨by decide, timeout_measured_from_state_entry.2.2.2 sampleRedSys (by decide)⟩

/-- C6: `EVENT_SENSOR_TRIGGERED` in `STATE_GREEN` adds exactly 5000 ms
to `stateDuration` (uint32) and changes nothing else — in particular
the whole environment, `stateStartTime` and the clock included, is
otherwise untouched; in any state other than `STATE_GREEN` it leaves
the system entirely unchanged. -/
theorem sensor_trigger_extends_green_only :
    (∀ s : Sys, s.tl.currentState = .green →
      handleEvent .sensorTriggered s =
        { s with tl := { s.tl with
            stateDuration := u32add s.tl.stateDuration 5000 } }) ∧
    (∀ s : Sys, s.tl.currentState ≠ .green →
      handleEvent .sensorTriggered s = s) := by
  refine ⟨fun s h => ?_, fun s h => ?_⟩
  · simp [handleEvent, h]
  · simp [handleEvent, h]

/-- Witness for C6: the green sample gets 15000 + 5000 = 20000 ms, and
the red sample is untouched. -/
theorem sensor_trigger_extends_green_only_witness :
    (sampleGreenSys.tl.currentState = .green ∧
      handleEvent .sensorTriggered sampleGreenSys =
        { sampleGreenSys with tl := { sampleGreenSys.tl with
            stateDuration := u32add sampleGreenSys.tl.stateDuration 5000 } }) ∧
    (sampleRedSys.tl.currentState ≠ .green ∧
      handleEvent .sensorTriggered sampleRedSys = sampleRedSys) :=
  ⟨⟨by decide, sensor_trigger_extends_green_only.1 sampleGreenSys (by decide)⟩,
   ⟨by decide, sensor_trigger_extends_green_only.2 sampleRedSys (by decide)⟩⟩

/-- C8 counterexample: the simulated clock wraps.  The 4294967-th call
of `getCurrentTime` returns 4294967000, the next call returns
(4294968000 mod 2^32) = 704, strictly smaller — so the returned
timestamps are not strictly increasing. -/
theorem getCurrentTime_wraps_and_decreases :
    simTime 4294968 < simTime 4294967 := by
  rw [simTime_closed, simTime_closed]
  decide

/-- C8 amended: as long as no wrap-around has occurred
(`1000 * (n+1) < 2^32`), each `getCurrentTime` call returns a value
strictly greater than the previous call's. -/
theorem getCurrentTime_monotone_before_wrap (n : Nat)
    (h : 1000 * (n + 1) < U32) :
    simTime n < simTime (n + 1) := by
  have hU : U32 = 4294967296 := by norm_num [U32]
  rw [hU] at h
  have h1 : 1000 * n < U32 := by rw [hU]; omega
  rw [simTime_closed, simTime_closed, Nat.mod_eq_of_lt h1,
    Nat.mod_eq_of_lt (by rw [hU]; exact h)]
  omega

/-- Witness for the amended C8 at n = 3. -/
theorem getCurrentTime_monotone_before_wrap_witness :
    1000 * (3 + 1) < U32 ∧ simTime 3 < simTime 4 :=
  ⟨by decide, getCurrentTime_monotone_before_wrap 3 (by decide)⟩

/-- Modelled from the spec: the FreeRTOS bounded queue
(`xQueueCreate` / `xQueueSend` / `xQueueReceive`, used by
`03_freertos_tasks.c`) is not under `src/`; the spec describes a
fixed-capacity FIFO whose full state rejects non-blocking sends with a
queue-full condition.  `items` lists the in-flight payloads in FIFO
order, oldest first. -/
structure BoundedQueue (α : Type) where
  capacity : Nat
  items : List α
  deriving DecidableEq, Repr

/-- Modelled from the spec: non-blocking (zero-timeout) send.  Returns
the new queue and `true` on success, or the unchanged queue and
`false` when the queue is full. -/
def queueSend {α : Type} (q : BoundedQueue α) (x : α) : BoundedQueue α × Bool :=
  if q.items.length < q.capacity then ({ q with items := q.items ++ [x] }, true)
  else (q, false)

/-- Modelled from the spec: non-blocking (zero-timeout) receive.
Returns the oldest item and the remaining queue, or `none` when
empty. -/
def queueReceive {α : Type} (q : BoundedQueue α) : Option (α × BoundedQueue α) :=
  match q.items with
  | [] => none
  | x :: rest => some (x, { q with items := rest })

/-- C2: a queue already holding `capacity` items rejects a zero-timeout
send (returning the queue-full failure) and keeps its contents
unchanged; after one successful receive, a subsequent send
succeeds. -/
theorem queue_full_send_rejected_then_succeeds {α : Type}
    (q : BoundedQueue α) (x y : α) (hfull : q.items.length = q.capacity) :
    (queueSend q x).2 = false ∧ (queueSend q x).1 = q ∧
    (∀ (a : α) (q' : BoundedQueue α), queueReceive q = some (a, q') →
      (queueSend q' y).2 = true) := by
  have hnot : ¬ q.items.length < q.capacity := by omega
  refine ⟨by simp [queueSend, hnot], by simp [queueSend, hnot], ?_⟩
  intro a q' hr
  cases hi : q.items with
  | nil => simp [queueReceive, hi] at hr
  | cons b rest =>
    simp only [queueReceive, hi] at hr
    obtain ⟨hb, hq⟩ := Prod.mk.injEq .. ▸ (Option.some.injEq .. ▸ hr)
    have hlen : rest.length + 1 = q.capacity := by
      simpa [hi] using hfull
    have : q'.items.length < q'.capacity := by
      rw [← hq]; simp; omega
    simp [queueSend, this]

/-- Scenario B queue of capacity 2 holding two items, for the C2
witness. -/
def sampleFullQueue : BoundedQueue Nat := { capacity := 2, items := [10, 20] }

/-- Witness for C2 on the Scenario B queue: the third send fails, the
queue is unchanged, and after receiving once a send succeeds. -/
theorem queue_full_send_rejected_then_succeeds_witness :
    sampleFullQueue.items.length = sampleFullQueue.capacity ∧
    (queueSend sampleFullQueue 30).2 = false ∧
    (queueSend sampleFullQueue 30).1 = sampleFullQueue ∧
    (queueSend { capacity := 2, items := [20] } 30).2 = true :=
  ⟨by decide,
   (queue_full_send_rejected_then_succeeds sampleFullQueue 30 30 (by decide)).1,
   (queue_full_send_rejected_then_succeeds sampleFullQueue 30 30 (by decide)).2.1,
   (queue_full_send_rejected_then_succeeds sampleFullQueue 30 30 (by decide)).2.2
     10 { capacity := 2, items := [20] } rfl⟩

/-- Events a watchdog could enqueue into a queue (the spec's
`SystemFault`). -/
inductive SysEvent where
  | systemFault
  deriving DecidableEq, Repr

/-- The health-bookkeeping state of `taskWatchdog`: the
`static int unhealthyCount` local and the global
`systemState.alarmActive` flag. -/
structure WatchdogState where
  unhealthyCount : Nat
  alarmActive : Bool
  deriving DecidableEq, Repr

/-- One iteration of `taskWatchdog`'s fault bookkeeping
(`03_freertos_tasks.c`), abstracted over whether the three health
checks of the iteration passed (`systemHealthy`): on an unhealthy
check the counter is incremented and, once it exceeds 5, the alarm
flag is set and the counter reset; on a healthy check the counter is
reset.  The second component lists the events the iteration enqueues
into any queue — `taskWatchdog` contains no `xQueueSend` call, so it
is always empty. -/
def taskWatchdogCheck (systemHealthy : Bool) (w : WatchdogState) :
    WatchdogState × List SysEvent :=
  if systemHealthy then ({ w with unhealthyCount := 0 }, [])
  else
    let c := w.unhealthyCount + 1
    if 5 < c then ({ unhealthyCount := 0, alarmActive := true }, [])
    else ({ w with unhealthyCount := c }, [])

/-- Iterate `taskWatchdogCheck` over a sequence of health outcomes,
accumulating every event enqueued along the way. -/
def taskWatchdogRun (healthSeq : List Bool) (w : WatchdogState) :
    WatchdogState × List SysEvent :=
  match healthSeq with
  | [] => (w, [])
  | h :: rest =>
    let p := taskWatchdogCheck h w
    let q := taskWatchdogRun rest p.1
    (q.1, p.2 ++ q.2)

/-- C7 counterexample: after six consecutive unhealthy checks from the
initial state the global fault flag is set, yet the run has emitted no
`SystemFault` event into any queue — the flag is not set "together
with emission of a SystemFault event" as the claim states. -/
theorem watchdog_alarm_without_fault_event :
    (taskWatchdogRun [false, false, false, false, false, false]
      { unhealthyCount := 0, alarmActive := false }).1.alarmActive = true ∧
    (taskWatchdogRun [false, false, false, false, false, false]
      { unhealthyCount := 0, alarmActive := false }).2 = [] := by
  decide

/-- C7 amended: each check resets the counter on a healthy outcome,
increments it on an unhealthy one, and sets the fault flag (resetting
the counter) exactly when the incremented counter exceeds the
threshold 5 — never before; no check emits any event into a queue. -/
theorem watchdog_count_alarm_threshold (healthy : Bool) (w : WatchdogState) :
    (healthy = true →
      taskWatchdogCheck healthy w = ({ w with unhealthyCount := 0 }, [])) ∧
    (healthy = false → w.unhealthyCount + 1 ≤ 5 →
      taskWatchdogCheck healthy w =
        ({ w with unhealthyCount := w.unhealthyCount + 1 }, [])) ∧
    (healthy = false → 5 < w.unhealthyCount + 1 →
      taskWatchdogCheck healthy w =
        ({ unhealthyCount := 0, alarmActive := true }, [])) := by
  refine ⟨fun h => ?_, fun h hle => ?_, fun h hgt => ?_⟩
  · simp [taskWatchdogCheck, h]
  · simp [taskWatchdogCheck, h, Nat.not_lt.mpr hle]
  · simp [taskWatchdogCheck, h, hgt]

/-- Witness for the amended C7: a healthy check resets a count of 3, an
unhealthy check bumps 3 to 4 without touching the alarm, and an
unhealthy check at count 5 trips the alarm. -/
theorem watchdog_count_alarm_threshold_witness :
    taskWatchdogCheck true { unhealthyCount := 3, alarmActive := false } =
      ({ unhealthyCount := 0, alarmActive := false }, []) ∧
    taskWatchdogCheck false { unhealthyCount := 3, alarmActive := false } =
      ({ unhealthyCount := 4, alarmActive := false }, []) ∧
    taskWatchdogCheck false { unhealthyCount := 5, alarmActive := false } =
      ({ unhealthyCount := 0, alarmActive := true }, []) :=
  ⟨(watchdog_count_alarm_threshold true
      { unhealthyCount := 3, alarmActive := false }).1 rfl,
   (watchdog_count_alarm_threshold false
      { unhealthyCount := 3, alarmActive := false }).2.1 rfl (by decide),
   (watchdog_count_alarm_threshold false
      { unhealthyCount := 5, alarmActive := false }).2.2 rfl (by decide)⟩

/-- Modelled from the spec: the spec's Task states
{Ready, Running, Blocked, Suspended, Terminated} — the FreeRTOS
scheduler used by `03_freertos_tasks.c` is not under `src/`. -/
inductive TaskStatus where
  | ready
  | running
  | blocked
  | suspended
  | terminated
  deriving DecidableEq, Repr

/-- Modelled from the spec: a schedulable task — `id` is the
registration order (earlier id = registered earlier), `priority` is an
integer with higher = more urgent. -/
structure SchedTask where
  id : Nat
  priority : Nat
  status : TaskStatus
  deriving DecidableEq, Repr

/-- Modelled from the spec: the scheduling decision — pick the
highest-priority Ready task; among equal priorities the
earliest-registered (earliest in the registration-order list) wins.
Returns `none` when no task is Ready (idle). -/
def selectNext : List SchedTask → Option SchedTask
  | [] => none
  | t :: ts =>
    if t.status = .ready then
      match selectNext ts with
      | none => some t
      | some b => if b.priority ≤ t.priority then some t else some b
    else selectNext ts

/-- Modelled from the spec: mark the task with the given id Blocked
(run-to-block: the selected task runs until it yields/blocks). -/
def blockTask (i : Nat) (tasks : List SchedTask) : List SchedTask :=
  tasks.map fun u => if u.id = i then { u with status := .blocked } else u

/-- Modelled from the spec: the order in which the scheduler runs
tasks when each selected task runs to block, with `fuel` bounding the
number of scheduling decisions. -/
def scheduleTrace (fuel : Nat) (tasks : List SchedTask) : List Nat :=
  match fuel with
  | 0 => []
  | fuel + 1 =>
    match selectNext tasks with
    | none => []
    | some t => t.id :: scheduleTrace fuel (blockTask t.id tasks)

theorem selectNext_isSome_ready {tasks : List SchedTask} {t : SchedTask}
    (h : selectNext tasks = some t) : t ∈ tasks ∧ t.status = .ready := by
  induction tasks with
  | nil => simp [selectNext] at h
  | cons a as ih =>
    by_cases ha : a.status = .ready
    · rw [selectNext, if_pos ha] at h
      cases hrest : selectNext as with
      | none =>
        rw [hrest] at h
        have h2 : some a = some t := h
        obtain rfl := Option.some.injEq .. ▸ h2
        exact ⟨List.mem_cons_self a as, ha⟩
      | some b =>
        rw [hrest] at h
        have h2 : (if b.priority ≤ a.priority then some a else some b) = some t := h
        by_cases hp : b.priority ≤ a.priority
        · rw [if_pos hp] at h2
          obtain rfl := Option.some.injEq .. ▸ h2
          exact ⟨List.mem_cons_self a as, ha⟩
        · rw [if_neg hp] at h2
          obtain rfl := Option.some.injEq .. ▸ h2
          obtain ⟨hm, hr⟩ := ih hrest
          exact ⟨List.mem_cons_of_mem a hm, hr⟩
    · rw [selectNext, if_neg ha] at h
      obtain ⟨hm, hr⟩ := ih h
      exact ⟨List.mem_cons_of_mem a hm, hr⟩

theorem selectNext_none_no_ready {tasks : List SchedTask}
    (h : selectNext tasks = none) :
    ∀ u ∈ tasks, u.status ≠ .ready := by
  induction tasks with
  | nil => intro u hu; cases hu
  | cons a as ih =>
    intro u hu
    by_cases ha : a.status = .ready
    · rw [selectNext, if_pos ha] at h
      cases hrest : selectNext as with
      | none =>
        rw [hrest] at h
        exact absurd h (by simp)
      | some b =>
        rw [hrest] at h
        have h2 : (if b.priority ≤ a.priority then some a else some b) = none := h
        by_cases hp : b.priority ≤ a.priority
        · rw [if_pos hp] at h2; cases h2
        · rw [if_neg hp] at h2; cases h2
    · rw [selectNext, if_neg ha] at h
      rcases List.mem_cons.mp hu with rfl | hu2
      · exact ha
      · exact ih h u hu2

theorem selectNext_max_priority {tasks : List SchedTask} {t : SchedTask}
    (h : selectNext tasks = some t) :
    ∀ u ∈ tasks, u.status = .ready → u.priority ≤ t.priority := by
  induction tasks generalizing t with
  | nil => simp [selectNext] at h
  | cons a as ih =>
    intro u hu hur
    by_cases ha : a.status = .ready
    · rw [selectNext, if_pos ha] at h
      cases hrest : selectNext as with
      | none =>
        rw [hrest] at h
        have h2 : some a = some t := h
        obtain rfl := Option.some.injEq .. ▸ h2
        rcases List.mem_cons.mp hu with rfl | hu2
        · exact le_refl _
        · exact absurd hur (selectNext_none_no_ready hrest u hu2)
      | some b =>
        rw [hrest] at h
        have h2 : (if b.priority ≤ a.priority then some a else some b) = some t := h
        by_cases hp : b.priority ≤ a.priority
        · rw [if_pos hp] at h2
          obtain rfl := Option.some.injEq .. ▸ h2
          rcases List.mem_cons.mp hu with rfl | hu2
          · exact le_refl _
          · exact le_trans (ih hrest u hu2 hur) hp
        · rw [if_neg hp] at h2
          obtain rfl := Option.some.injEq .. ▸ h2
          rcases List.mem_cons.mp hu with rfl | hu2
          · exact le_of_not_le hp
          · exact ih hrest u hu2 hur
    · rw [selectNext, if_neg ha] at h
      rcases List.mem_cons.mp hu with rfl | hu2
      · exact absurd hur ha
      · exact ih h u hu2 hur

theorem selectNext_earliest_on_tie {tasks : List SchedTask} {t : SchedTask}
    (h : selectNext tasks = some t) :
    ∃ l1 l2, tasks = l1 ++ t :: l2 ∧
      ∀ u ∈ l1, u.status = .ready → u.priority < t.priority := by
  induction tasks with
  | nil => simp [selectNext] at h
  | cons a as ih =>
    by_cases ha : a.status = .ready
    · rw [selectNext, if_pos ha] at h
      cases hrest : selectNext as with
      | none =>
        rw [hrest] at h
        have h2 : some a = some t := h
        obtain rfl := Option.some.injEq .. ▸ h2
        exact ⟨[], as, rfl, by intro u hu; cases hu⟩
      | some b =>
        rw [hrest] at h
        have h2 : (if b.priority ≤ a.priority then some a else some b) = some t := h
        by_cases hp : b.priority ≤ a.priority
        · rw [if_pos hp] at h2
          obtain rfl := Option.some.injEq .. ▸ h2
          exact ⟨[], as, rfl, by intro u hu; cases hu⟩
        · rw [if_neg hp] at h2
          obtain rfl := Option.some.injEq .. ▸ h2
          obtain ⟨l1, l2, heq, hlt⟩ := ih hrest
          refine ⟨a :: l1, l2, by simp [heq], ?_⟩
          intro u hu hur
          rcases List.mem_cons.mp hu with rfl | hu2
          · exact lt_of_not_le hp
          · exact hlt u hu2 hur
    · rw [selectNext, if_neg ha] at h
      obtain ⟨l1, l2, heq, hlt⟩ := ih h
      refine ⟨a :: l1, l2, by simp [heq], ?_⟩
      intro u hu hur
      rcases List.mem_cons.mp hu with rfl | hu2
      · exact absurd hur ha
      · exact hlt u hu2 hur

/-- The three tasks of Scenario A, in registration order, with
priorities 1, 2 and 3, all Ready. -/
def scenarioATasks : List SchedTask :=
  [{ id := 0, priority := 1, status := .ready },
   { id := 1, priority := 2, status := .ready },
   { id := 2, priority := 3, status := .ready }]

/-- C9: on Scenario A's three simultaneously Ready tasks with
priorities 1, 2 and 3, the scheduler runs the priority-3 task first,
then priority 2, then priority 1, as each runs to block; in general
the selected task is Ready and of maximal priority among Ready tasks
(so a strictly higher-priority Ready task is never passed over), and
among equal-priority Ready tasks the earliest-registered one is
selected (every task listed before the selected one is either not
Ready or of strictly lower priority). -/
theorem scheduler_runs_by_priority :
    scheduleTrace 3 scenarioATasks = [2, 1, 0] ∧
    (∀ (tasks : List SchedTask) (t : SchedTask), selectNext tasks = some t →
      t ∈ tasks ∧ t.status = .ready ∧
      ∀ u ∈ tasks, u.status = .ready → u.priority ≤ t.priority) ∧
    (∀ (tasks : List SchedTask) (t : SchedTask), selectNext tasks = some t →
      ∃ l1 l2, tasks = l1 ++ t :: l2 ∧
        ∀ u ∈ l1, u.status = .ready → u.priority < t.priority) := by
  refine ⟨by decide, fun tasks t h => ?_,
    fun tasks t h => selectNext_earliest_on_tie h⟩
  obtain ⟨hm, hr⟩ := selectNext_isSome_ready h
  exact ⟨hm, hr, selectNext_max_priority h⟩

/-- Witness for C9: the selection on Scenario A's task set is the
priority-3 task, which dominates the priority-2 task. -/
theorem scheduler_runs_by_priority_witness :
    selectNext scenarioATasks =
      some { id := 2, priority := 3, status := .ready } ∧
    ({ id := 1, priority := 2, status := .ready } : SchedTask) ∈ scenarioATasks ∧
    (2 : Nat) ≤ 3 ∧
    (∃ l1 l2, scenarioATasks =
        l1 ++ ({ id := 2, priority := 3, status := .ready } : SchedTask) :: l2 ∧
      ∀ u ∈ l1, u.status = .ready → u.priority < 3) :=
  ⟨by decide, by decide,
   (scheduler_runs_by_priority.2.1 scenarioATasks
      { id := 2, priority := 3, status := .ready } (by decide)).2.2
     { id := 1, priority := 2, status := .ready } (by decide) (by decide),
   scheduler_runs_by_priority.2.2 scenarioATasks
     { id := 2, priority := 3, status := .ready } (by decide)⟩

/-- The circular-buffer capacity of the hardware-timer example
(`BUFFER_SIZE` in `src/unnamed/part_002`). -/
def BUFFER_SIZE : Nat := 60

/-- The three out-parameters of `calculateSensorStats`. -/
structure SensorStats where
  average : ℚ
  minimum : ℚ
  maximum : ℚ
  deriving DecidableEq, Repr

/-- Function `calculateSensorStats` of the hardware-timer example:
with no readings it zeroes all three outputs and returns before any
division; otherwise it folds sum/min/max over the first
`min(totalReadings, BUFFER_SIZE)` buffer slots (min and max seeded
from slot 0, which the loop revisits) and divides the sum by that
count.  C `float` arithmetic is modelled as exact rational
arithmetic; `sensorReadings.getD i 0` models the in-bounds array read
`sensorReadings[i]`. -/
def calculateSensorStats (totalReadings : Nat) (sensorReadings : List ℚ) :
    SensorStats :=
  if totalReadings = 0 then { average := 0, minimum := 0, maximum := 0 }
  else
    let readingsToUse := min totalReadings BUFFER_SIZE
    let first := sensorReadings.getD 0 0
    let r := (List.range readingsToUse).foldl
      (fun (acc : ℚ × ℚ × ℚ) i =>
        let v := sensorReadings.getD i 0
        (acc.1 + v, min acc.2.1 v, max acc.2.2 v))
      (0, first, first)
    { average := r.1 / (readingsToUse : ℚ), minimum := r.2.1,
      maximum := r.2.2 }

theorem statsFold_spec (vs : List ℚ) (s0 m0 M0 : ℚ) :
    vs.foldl (fun (acc : ℚ × ℚ × ℚ) v =>
        (acc.1 + v, min acc.2.1 v, max acc.2.2 v)) (s0, m0, M0) =
      (s0 + vs.sum, vs.foldl min m0, vs.foldl max M0) := by
  induction vs generalizing s0 m0 M0 with
  | nil => simp
  | cons a as ih => simp [List.foldl_cons, ih, add_assoc]

theorem foldl_min_le_init (vs : List ℚ) (m : ℚ) : vs.foldl min m ≤ m := by
  induction vs generalizing m with
  | nil => exact le_refl m
  | cons a as ih => exact le_trans (ih (min m a)) (min_le_left m a)

theorem foldl_min_le_mem (vs : List ℚ) (m v : ℚ) (hv : v ∈ vs) :
    vs.foldl min m ≤ v := by
  induction vs generalizing m with
  | nil => cases hv
  | cons a as ih =>
    rcases List.mem_cons.mp hv with rfl | hv2
    · exact le_trans (foldl_min_le_init as (min m v)) (min_le_right m v)
    · exact ih (min m a) hv2

theorem foldl_max_init_le (vs : List ℚ) (M : ℚ) : M ≤ vs.foldl max M := by
  induction vs generalizing M with
  | nil => exact le_refl M
  | cons a as ih => exact le_trans (le_max_left M a) (ih (max M a))

theorem foldl_max_mem_le (vs : List ℚ) (M v : ℚ) (hv : v ∈ vs) :
    v ≤ vs.foldl max M := by
  induction vs generalizing M with
  | nil => cases hv
  | cons a as ih =>
    rcases List.mem_cons.mp hv with rfl | hv2
    · exact le_trans (le_max_right M v) (foldl_max_init_le as (max M v))
    · exact ih (max M a) hv2

theorem mul_length_le_sum (vs : List ℚ) (m : ℚ) (h : ∀ v ∈ vs, m ≤ v) :
    m * vs.length ≤ vs.sum := by
  induction vs with
  | nil => simp
  | cons a as ih =>
    have h1 := ih fun v hv => h v (List.mem_cons_of_mem a hv)
    have h2 := h a (List.mem_cons_self a as)
    simp only [List.sum_cons, List.length_cons]
    push_cast
    nlinarith

theorem sum_le_mul_length (vs : List ℚ) (M : ℚ) (h : ∀ v ∈ vs, v ≤ M) :
    vs.sum ≤ M * vs.length := by
  induction vs with
  | nil => simp
  | cons a as ih =>
    have h1 := ih fun v hv => h v (List.mem_cons_of_mem a hv)
    have h2 := h a (List.mem_cons_self a as)
    simp only [List.sum_cons, List.length_cons]
    push_cast
    nlinarith

/-- C10: `calculateSensorStats` with zero readings returns all-zero
stats without dividing; with a positive count it averages the sum of
exactly `min(totalReadings, BUFFER_SIZE)` buffer slots over that
count, and the outputs satisfy `minimum ≤ average ≤ maximum`. -/
theorem calculateSensorStats_safe :
    (∀ buf : List ℚ, calculateSensorStats 0 buf =
      { average := 0, minimum := 0, maximum := 0 }) ∧
    (∀ (n : Nat) (buf : List ℚ), 0 < n →
      (calculateSensorStats n buf).average =
        ((List.range (min n BUFFER_SIZE)).map (fun i => buf.getD i 0)).sum /
          ((min n BUFFER_SIZE : Nat) : ℚ) ∧
      (calculateSensorStats n buf).minimum ≤ (calculateSensorStats n buf).average ∧
      (calculateSensorStats n buf).average ≤ (calculateSensorStats n buf).maximum) := by
  constructor
  · intro buf; rfl
  · intro n buf hn
    have hne : ¬ n = 0 := by omega
    set k := min n BUFFER_SIZE with hk
    have hkpos : 0 < k := by
      have : 0 < BUFFER_SIZE := by norm_num [BUFFER_SIZE]
      omega
    set vs : List ℚ := (List.range k).map (fun i => buf.getD i 0) with hvs
    set first : ℚ := buf.getD 0 0 with hfirst
    have h1 := statsFold_spec vs 0 first first
    have h2 : vs.foldl (fun (acc : ℚ × ℚ × ℚ) v =>
          (acc.1 + v, min acc.2.1 v, max acc.2.2 v)) (0, first, first) =
        (List.range k).foldl
          (fun (acc : ℚ × ℚ × ℚ) i =>
            let v := buf.getD i 0
            (acc.1 + v, min acc.2.1 v, max acc.2.2 v))
          (0, first, first) := by
      rw [hvs, List.foldl_map]
    have hfold : (List.range k).foldl
        (fun (acc : ℚ × ℚ × ℚ) i =>
          let v := buf.getD i 0
          (acc.1 + v, min acc.2.1 v, max acc.2.2 v))
        (0, first, first) =
        (0 + vs.sum, vs.foldl min first, vs.foldl max first) := by
      rw [← h2]; exact h1
    have hstats : calculateSensorStats n buf =
        { average := (0 + vs.sum) / (k : ℚ),
          minimum := vs.foldl min first,
          maximum := vs.foldl max first } := by
      simp only [calculateSensorStats, if_neg hne, ← hk, ← hfirst, hfold]
    have hlen : (vs.length : ℚ) = (k : ℚ) := by rw [hvs]; simp
    have hkQ : (0 : ℚ) < (k : ℚ) := by exact_mod_cast hkpos
    have hminle : ∀ v ∈ vs, vs.foldl min first ≤ v :=
      fun v hv => foldl_min_le_mem vs first v hv
    have hmaxge : ∀ v ∈ vs, v ≤ vs.foldl max first :=
      fun v hv => foldl_max_mem_le vs first v hv
    have hsum_lb : vs.foldl min first * (k : ℚ) ≤ vs.sum := by
      rw [← hlen]; exact mul_length_le_sum vs _ hminle
    have hsum_ub : vs.sum ≤ vs.foldl max first * (k : ℚ) := by
      rw [← hlen]; exact sum_le_mul_length vs _ hmaxge
    refine ⟨by rw [hstats]; simp, ?_, ?_⟩
    · rw [hstats]
      simp only [zero_add]
      rw [le_div_iff₀ hkQ]
      exact hsum_lb
    · rw [hstats]
      simp only [zero_add]
      rw [div_le_iff₀ hkQ]
      exact hsum_ub

/-- Witness for C10: three readings in a fresh buffer give average
(1 + 3 + 2)/3 = 2 with minimum 1 and maximum 3. -/
theorem calculateSensorStats_safe_witness :
    calculateSensorStats 0 [1, 3, 2] =
      { average := 0, minimum := 0, maximum := 0 } ∧
    (0 : Nat) < 3 ∧
    (calculateSensorStats 3 [1, 3, 2]).average =
      ((List.range (min 3 BUFFER_SIZE)).map
        (fun i => List.getD [1, 3, 2] i 0)).sum /
        ((min 3 BUFFER_SIZE : Nat) : ℚ) ∧
    (calculateSensorStats 3 [1, 3, 2]).minimum ≤
      (calculateSensorStats 3 [1, 3, 2]).average ∧
    (calculateSensorStats 3 [1, 3, 2]).average ≤
      (calculateSensorStats 3 [1, 3, 2]).maximum :=
  ⟨calculateSensorStats_safe.1 [1, 3, 2], by decide,
   calculateSensorStats_safe.2 3 [1, 3, 2] (by decide)⟩
